import Mathlib

/-!
# Verification of the EG4 inverter API client

Shallow embedding of `src/eg4_inverter_api/client.py` (class `EG4InverterAPI`).

The HTTP transport is modelled as an oracle `HttpEnv` giving the response to
the n-th HTTP call the client performs; the client's behaviour depends on the
responses only through the order in which they arrive, so quantifying over
oracles covers every environment.  Every HTTP call the client issues is also
recorded in a trace, so that properties about *which* requests were sent
(how many logins, which cookie header) can be stated.

Parsed JSON bodies are modelled by the inductive `Json` (numbers as rationals,
which represent JSON decimal literals exactly).  Python exceptions are the
inductive `PyError`; functions return `Except PyError α` together with the
updated client/world state.

The repository's `models.py`, `exceptions.py` and `constants.py` are not in
the sources; the record shapes (`Inverter`, `RuntimeData`, `BatteryData`,
`BatteryUnit`, `APIResponse`) and the endpoint set are modelled from the spec
where noted.
-/

set_option autoImplicit false

namespace EG4

/-- A parsed JSON value.  Numbers are rationals (JSON decimal literals are
exactly representable). -/
inductive Json where
  | null
  | bool (b : Bool)
  | num (q : ℚ)
  | str (s : String)
  | arr (items : List Json)
  | obj (fields : List (String × Json))

/-- Python `dict.get(k)` on a parsed JSON object: the value of the first
field named `k`, or `None` (here `none`).  On non-objects there is no such
key. -/
def Json.get : Json → String → Option Json
  | .obj fs, k => (fs.find? (fun p => p.1 = k)).map Prod.snd
  | _, _ => none

/-- Python truthiness of a parsed JSON value (`None`, `False`, `0`, `""`,
`[]`, `{}` are falsy). -/
def Json.truthy : Json → Bool
  | .null => false
  | .bool b => b
  | .num q => decide (q ≠ 0)
  | .str s => decide (s ≠ "")
  | .arr l => !l.isEmpty
  | .obj l => !l.isEmpty

/-- Truthiness of a Python value that may be `None` (`dict.get` result). -/
def optTruthy : Option Json → Bool
  | none => false
  | some v => v.truthy

/-- `data.get(k, [])` followed by iteration: the list of elements when the
key is present with a JSON array value, `[]` when the key is absent.
(A present non-array value would raise `TypeError` in Python; no claim
exercises that case.) -/
def Json.getList (j : Json) (k : String) : List Json :=
  match j.get k with
  | some (.arr l) => l
  | _ => []

/-- The fields of a JSON object, as used by Python `**` keyword spreading;
`[]` on non-objects (which `**` would reject; unexercised). -/
def Json.objFields : Json → List (String × Json)
  | .obj fs => fs
  | _ => []

/-- Python `str()` of a parsed JSON scalar, as interpolated into payloads.
Composite values are rendered opaquely; no claim inspects them. -/
def Json.pyStr : Json → String
  | .null => "None"
  | .bool true => "True"
  | .bool false => "False"
  | .num q => toString q
  | .str s => s
  | .arr _ => "[...]"
  | .obj _ => "{...}"

/-- Python `str()` of an optional value (`None` renders as `"None"`). -/
def pyStrOpt : Option Json → String
  | none => "None"
  | some v => v.pyStr

/-- Python exceptions raised by the client: `EG4AuthError`, `EG4APIError`
(from `exceptions.py`), and the builtin `IndexError` from list indexing. -/
inductive PyError where
  | authError (msg : String)
  | apiError (msg : String)
  | indexError
deriving DecidableEq

/-- An HTTP response as the client observes it: status code, response
cookies (name/value pairs in jar order), raw text and parsed JSON body. -/
structure Response where
  status : Nat
  cookies : List (String × String)
  text : String
  body : Json

/-- The four vendor endpoints.  Modelled from the spec: `constants.py` is
not in the sources; the endpoints are distinct fixed paths
(`/WManage/web/login` and the runtime/energy/battery data paths). -/
inductive Endpoint where
  | login
  | runtime
  | energy
  | battery
deriving DecidableEq

/-- One HTTP call issued by the client: the endpoint, the explicit `Cookie`
header if one was set, and the form payload. -/
structure Call where
  endpoint : Endpoint
  cookie : Option String
  payload : String
deriving DecidableEq

/-- An `Inverter` record (from `models.py`, modelled from the spec): plant
identifier and plant name taken from the enclosing plant entry, plus the
passthrough of the inverter JSON object's own fields (`**inverter`). -/
structure Inverter where
  plantId : Option Json
  plantName : Option Json
  fields : List (String × Json)

/-- The `serialNum` attribute of an `Inverter`, fed by the `serialNum` key
of the spread inverter object. -/
def Inverter.serialNum (inv : Inverter) : Option Json :=
  (inv.fields.find? (fun p => p.1 = "serialNum")).map Prod.snd

/-- The mutable state of an `EG4InverterAPI` instance (`__init__`). -/
structure ClientState where
  username : String
  password : String
  jsessionid : Option String
  inverters : List Inverter
  plantId : Option Json
  serialNum : Option Json

/-- Python falsiness of `self.jsessionid` (`not self.jsessionid`): true for
`None` and for the empty string. -/
def tokenFalsy : Option String → Bool
  | none => true
  | some s => decide (s = "")

/-- Python `str()` of `self.jsessionid` as interpolated into the `Cookie`
header. -/
def tokenStr : Option String → String
  | none => "None"
  | some s => s

/-- The HTTP environment: the response delivered to the n-th HTTP call the
client performs. -/
structure HttpEnv where
  respond : Nat → Response

/-- The world threaded through the client's operations: client state, the
count of HTTP calls performed so far, and the trace of calls issued. -/
structure World where
  st : ClientState
  counter : Nat
  trace : List Call

/-- Perform one HTTP call: consult the oracle, bump the counter, record the
call. -/
def doCall (env : HttpEnv) (w : World) (c : Call) : Response × World :=
  (env.respond w.counter,
    { w with counter := w.counter + 1, trace := w.trace ++ [c] })

/-- `_extract_jsessionid`: the value of the first cookie named
`JSESSIONID`, else `EG4AuthError`. -/
def extract_jsessionid (cookies : List (String × String)) :
    Except PyError String :=
  match cookies.find? (fun p => p.1 = "JSESSIONID") with
  | some p => .ok p.2
  | none => .error (.authError "Failed to retrieve JSESSIONID during login.")

/-- The flattened device list read from the login body: one `Inverter` per
entry of `plants[].inverters[]`, in order. -/
def invertersOf (data : Json) : List Inverter :=
  (data.getList "plants").flatMap (fun plant =>
    (plant.getList "inverters").map (fun inv =>
      ⟨plant.get "plantId", plant.get "name", inv.objFields⟩))

/-- `_extract_inverters`: the flattened device list, or `EG4APIError` when
it is empty. -/
def extract_inverters (data : Json) : Except PyError (List Inverter) :=
  let invs := invertersOf data
  if invs.isEmpty then
    .error (.apiError "No inverters found in the response data.")
  else
    .ok invs

/-- The Python test `"success" in d and d["success"] is True` (the negation
of the guard raising `EG4AuthError` in `login`): the body has a `success`
key whose value is the JSON literal `true`. -/
def successIsTrue (body : Json) : Bool :=
  match body.get "success" with
  | some (.bool true) => true
  | _ => false

/-- The constant message of a failed login. -/
def loginFailedMsg : String := "Login failed. Please check your credentials."

/-- The login form payload `account=<user>&password=<pass>`. -/
def loginPayload (st : ClientState) : String :=
  "account=" ++ st.username ++ "&password=" ++ st.password

/-- `login`: POST the credentials; on HTTP 200, first store the
`JSESSIONID` cookie as the session token (raising `EG4AuthError` if the
cookie is absent), then require the body to contain `success: true`
(identity with `True`; anything else raises `EG4AuthError`), then extract
and store the device list; on any other status raise `EG4AuthError`. -/
def login (env : HttpEnv) (w : World) : Except PyError Unit × World :=
  let (response, w1) := doCall env w ⟨.login, none, loginPayload w.st⟩
  if response.status = 200 then
    match extract_jsessionid response.cookies with
    | .error e => (.error e, w1)
    | .ok tok =>
      let w2 := { w1 with st := { w1.st with jsessionid := some tok } }
      if successIsTrue response.body then
        match extract_inverters response.body with
        | .error e => (.error e, w2)
        | .ok invs =>
          (.ok (), { w2 with st := { w2.st with inverters := invs } })
      else
        (.error (.authError loginFailedMsg), w2)
  else
    (.error (.authError loginFailedMsg), w1)

/-- The `Cookie` header value `JSESSIONID={self.jsessionid}` built by
`_request` before the first request is sent. -/
def cookieHeader (tok : Option String) : String :=
  "JSESSIONID=" ++ tokenStr tok

/-- The body of `_request` after the implicit-login check (client.py lines
113-135): build the `Cookie` header from the cached token; send the
request.  On a 401, re-login and retry the same request *with the
previously built header* (the `headers` dict is not rebuilt after the
re-login); a non-200 retry raises `EG4APIError` with the retry status, a
200 retry returns its body.  A non-401 non-200 first response raises
`EG4APIError` immediately; a 200 first response returns its body. -/
def requestCore (env : HttpEnv) (w : World) (ep : Endpoint)
    (payload : String) : Except PyError Json × World :=
  let hdr := cookieHeader w.st.jsessionid
  let (response, w2) := doCall env w ⟨ep, some hdr, payload⟩
  if response.status = 401 then
    match login env w2 with
    | (.error e, w3) => (.error e, w3)
    | (.ok _, w3) =>
      let (retry, w4) := doCall env w3 ⟨ep, some hdr, payload⟩
      if retry.status = 200 then
        (.ok retry.body, w4)
      else
        (.error (.apiError ("API request failed: " ++ toString retry.status)),
          w4)
  else if response.status = 200 then
    (.ok response.body, w2)
  else
    (.error (.apiError ("API request failed: " ++ toString response.status
      ++ " - " ++ response.text)), w2)

/-- `_request`: login first when no session token is cached (propagating a
failed login), then run the send/retry body `requestCore`. -/
def request (env : HttpEnv) (w : World) (ep : Endpoint) (payload : String) :
    Except PyError Json × World :=
  match (if tokenFalsy w.st.jsessionid then login env w else (.ok (), w)) with
  | (.error e, w1) => (.error e, w1)
  | (.ok _, w1) => requestCore env w1 ep payload

/-- `APIResponse` (from `models.py`, modelled from the spec): the
failure-shaped result returned when the vendor reports `success: false` —
a success flag plus the vendor's error message. -/
structure APIResponse where
  success : Bool
  error_message : Option Json

/-- `RuntimeData` (from `models.py`, modelled from the spec): a flat
projection of the whole runtime response body (`**response`), with the
`captureExtra` flag controlling retention of unrecognized fields. -/
structure RuntimeData where
  captureExtra : Bool
  fields : List (String × Json)

/-- `EnergyData` (from `models.py`, modelled from the spec): a flat
projection of the whole energy response body (`**response`). -/
structure EnergyData where
  captureExtra : Bool
  fields : List (String × Json)

/-- `BatteryUnit` (from `models.py`, modelled from the spec): a flat
projection of one entry of the `batteryArray` list (`**unit`). -/
structure BatteryUnit where
  captureExtra : Bool
  fields : List (String × Json)

/-- `BatteryData` (from `models.py`, modelled from the spec): the aggregate
battery fields named explicitly at the construction site in
`get_inverter_battery_async`, plus the per-unit records. -/
structure BatteryData where
  remainCapacity : Option Json
  fullCapacity : Option Json
  totalNumber : Option Json
  totalVoltageText : Option Json
  currentText : Option Json
  battery_units : List BatteryUnit

/-- A data fetch returns either the typed record or an `APIResponse`
soft-failure value. -/
inductive FetchResult (α : Type) where
  | ok (d : α)
  | fail (r : APIResponse)

/-- The data form payload `serialNum=<active serial>`. -/
def serialPayload (st : ClientState) : String :=
  "serialNum=" ++ pyStrOpt st.serialNum

/-- `get_inverter_runtime_async`: POST the serial to the runtime endpoint
through `_request`; on a truthy body `success` build `RuntimeData` from the
whole body, else return an `APIResponse` failure carrying the body's
`error` field. -/
def get_inverter_runtime_async (env : HttpEnv) (w : World)
    (captureExtra : Bool) : Except PyError (FetchResult RuntimeData) × World :=
  match request env w .runtime (serialPayload w.st) with
  | (.error e, w1) => (.error e, w1)
  | (.ok body, w1) =>
    if optTruthy (body.get "success") then
      (.ok (.ok ⟨captureExtra, body.objFields⟩), w1)
    else
      (.ok (.fail ⟨false, body.get "error"⟩), w1)

/-- `get_inverter_energy_async`: as the runtime fetch, against the energy
endpoint. -/
def get_inverter_energy_async (env : HttpEnv) (w : World)
    (captureExtra : Bool) : Except PyError (FetchResult EnergyData) × World :=
  match request env w .energy (serialPayload w.st) with
  | (.error e, w1) => (.error e, w1)
  | (.ok body, w1) =>
    if optTruthy (body.get "success") then
      (.ok (.ok ⟨captureExtra, body.objFields⟩), w1)
    else
      (.ok (.fail ⟨false, body.get "error"⟩), w1)

/-- `get_inverter_battery_async`: as the other fetches, but on success
expand `batteryArray` (default `[]`) into `BatteryUnit` records in order
and build the aggregate `BatteryData` from the named body fields. -/
def get_inverter_battery_async (env : HttpEnv) (w : World)
    (captureExtra : Bool) : Except PyError (FetchResult BatteryData) × World :=
  match request env w .battery (serialPayload w.st) with
  | (.error e, w1) => (.error e, w1)
  | (.ok body, w1) =>
    if optTruthy (body.get "success") then
      (.ok (.ok
        ⟨body.get "remainCapacity", body.get "fullCapacity",
         body.get "totalNumber", body.get "totalVoltageText",
         body.get "currentText",
         (body.getList "batteryArray").map
           (fun unit => ⟨captureExtra, unit.objFields⟩)⟩), w1)
    else
      (.ok (.fail ⟨false, body.get "error"⟩), w1)

/-- Python list indexing, `l[i]`: nonnegative indices from the front,
negative indices from the back; `none` models the `IndexError` raised when
the index is out of Python's range. -/
def pyIndex {α : Type} (l : List α) (i : Int) : Option α :=
  if 0 ≤ i then l.get? i.toNat
  else if 0 ≤ (l.length : Int) + i then l.get? ((l.length : Int) + i).toNat
  else none

/-- The constant message of a failed device selection. -/
def noSelectionMsg : String := "No Inverter or Plant/Serial selection"

/-- `set_selected_inverter`: with both `plantId` and `serialNum` given,
store them; otherwise with an `inverterIndex` satisfying
`len(self._inverters) > inverterIndex`, select that list entry (Python
indexing, so a sufficiently negative index raises `IndexError`); otherwise
raise `EG4APIError`. -/
def set_selected_inverter (st : ClientState) (plantId serialNum : Option Json)
    (inverterIndex : Option Int) : Except PyError Unit × ClientState :=
  if plantId.isSome && serialNum.isSome then
    (.ok (), { st with plantId := plantId, serialNum := serialNum })
  else
    match inverterIndex with
    | some i =>
      if (st.inverters.length : Int) > i then
        match pyIndex st.inverters i with
        | some inv =>
          (.ok (), { st with plantId := inv.plantId,
                             serialNum := inv.serialNum })
        | none => (.error .indexError, st)
      else (.error (.apiError noSelectionMsg), st)
    | none => (.error (.apiError noSelectionMsg), st)

/-! ## Concrete fixtures for witnesses and counterexamples -/

/-- An environment replaying a fixed script of responses (and an inert
200/null response past its end). -/
def scriptEnv (rs : List Response) : HttpEnv :=
  ⟨fun n => rs.getD n ⟨200, [], "", .null⟩⟩

/-- A freshly constructed client (`__init__` with no serial or plant). -/
def initState (u p : String) : ClientState :=
  ⟨u, p, none, [], none, none⟩

/-- A world before any HTTP call. -/
def initWorld (st : ClientState) : World := ⟨st, 0, []⟩

/-- A login response body with one plant `P1`/`Home` holding one inverter
`SN123` (the spec's login example). -/
def loginBodyOk : Json :=
  .obj [("success", .bool true),
        ("plants", .arr [.obj [("plantId", .str "P1"),
                               ("name", .str "Home"),
                               ("inverters",
                                .arr [.obj [("serialNum", .str "SN123")]])]])]

/-- A successful login response carrying `JSESSIONID=<tok>`. -/
def loginRespOk (tok : String) : Response :=
  ⟨200, [("JSESSIONID", tok)], "", loginBodyOk⟩

/-! ## Theorems -/

/-- Results that are a raised `EG4AuthError` (with some message). -/
def isAuthError {α : Type} : Except PyError α → Prop :=
  fun r => ∃ msg, r = .error (.authError msg)

/-- `_extract_jsessionid` only ever raises `EG4AuthError` with its fixed
message. -/
theorem extract_jsessionid_error_eq (cs : List (String × String))
    (e : PyError) (h : extract_jsessionid cs = .error e) :
    e = .authError "Failed to retrieve JSESSIONID during login." := by
  unfold extract_jsessionid at h
  split at h <;> simp_all

/-- C3: for every login call, if the response body lacks the key `success`
or its value is not the JSON literal `true`, `login` raises `EG4AuthError`
— for every HTTP status of the response. -/
theorem C3_login_without_success_true_raises_AuthError (env : HttpEnv)
    (w : World) (h : successIsTrue (env.respond w.counter).body = false) :
    isAuthError (login env w).1 := by
  unfold login doCall
  by_cases h200 : (env.respond w.counter).status = 200
  · cases hext : extract_jsessionid (env.respond w.counter).cookies with
    | error e =>
      obtain rfl := extract_jsessionid_error_eq _ _ hext
      exact ⟨"Failed to retrieve JSESSIONID during login.",
        by simp [h200, hext]⟩
    | ok tok => exact ⟨loginFailedMsg, by simp [h200, hext, h]⟩
  · exact ⟨loginFailedMsg, by simp [h200]⟩

/-- C3 witness: a 200 response whose body has `success: false`. -/
theorem C3_witness :
    isAuthError (login
      (scriptEnv [⟨200, [("JSESSIONID", "tok")], "",
        .obj [("success", .bool false)]⟩])
      (initWorld (initState "u" "p"))).1 :=
  C3_login_without_success_true_raises_AuthError _ _ rfl

/-- C4: a login whose 200 response has no `JSESSIONID` cookie raises
`EG4AuthError` (whatever the body, in particular with `success: true`). -/
theorem C4_login_missing_jsessionid_raises_AuthError (env : HttpEnv)
    (w : World) (h200 : (env.respond w.counter).status = 200)
    (hck : (env.respond w.counter).cookies.find?
      (fun p => p.1 = "JSESSIONID") = none) :
    (login env w).1 =
      .error (.authError "Failed to retrieve JSESSIONID during login.") := by
  unfold login doCall
  simp [h200, extract_jsessionid, hck]

/-- C4 witness: a 200 response with `success: true` and a device list but
no `JSESSIONID` cookie. -/
theorem C4_witness :
    (login (scriptEnv [⟨200, [("OTHER", "x")], "", loginBodyOk⟩])
      (initWorld (initState "u" "p"))).1 =
      .error (.authError "Failed to retrieve JSESSIONID during login.") :=
  C4_login_missing_jsessionid_raises_AuthError _ _ rfl rfl

/-- C10: a login whose 200 response carries a `JSESSIONID` cookie but whose
body lacks `success: true` raises `EG4AuthError`, and the cached session
token has already been overwritten with the new cookie's value when the
error is raised. -/
theorem C10_failed_login_still_overwrites_token (env : HttpEnv) (w : World)
    (c : String × String) (h200 : (env.respond w.counter).status = 200)
    (hck : (env.respond w.counter).cookies.find?
      (fun p => p.1 = "JSESSIONID") = some c)
    (hsucc : successIsTrue (env.respond w.counter).body = false) :
    (login env w).1 = .error (.authError loginFailedMsg) ∧
      (login env w).2.st.jsessionid = some c.2 := by
  unfold login doCall
  simp [h200, extract_jsessionid, hck, hsucc]

/-- C10 witness: a 200 response with cookie `JSESSIONID=newtok` and body
`success: false`, starting from a client holding token `oldtok`. -/
theorem C10_witness :
    (login (scriptEnv [⟨200, [("JSESSIONID", "newtok")], "",
        .obj [("success", .bool false)]⟩])
      (initWorld ⟨"u", "p", some "oldtok", [], none, none⟩)).1 =
        .error (.authError loginFailedMsg) ∧
    (login (scriptEnv [⟨200, [("JSESSIONID", "newtok")], "",
        .obj [("success", .bool false)]⟩])
      (initWorld ⟨"u", "p", some "oldtok", [], none, none⟩)).2.st.jsessionid =
        some "newtok" :=
  C10_failed_login_still_overwrites_token _ _ ("JSESSIONID", "newtok")
    rfl rfl rfl

/-- Environment for the C1 run: the data request is rejected with 401, the
re-login succeeds with a fresh token `newtok`, the retry gets 200. -/
def c1Env : HttpEnv :=
  scriptEnv [⟨401, [], "", .null⟩, loginRespOk "newtok",
    ⟨200, [], "", .obj [("success", .bool true)]⟩]

/-- Client for the C1 run: token `oldtok` cached, serial `SN123` active. -/
def c1World : World :=
  ⟨⟨"u", "p", some "oldtok", [], none, some (.str "SN123")⟩, 0, []⟩

/-- C1: on a 401, `_request` re-logs-in (the cached token becomes the fresh
`newtok`) but sends the retry with the `Cookie` header built *before* the
first request, i.e. with the stale `oldtok` — the `headers` dict is not
rebuilt after the re-login.  This contradicts the claim (and the spec's
invariant that the current token is attached to every request): the retry
does not carry the freshly obtained token. -/
theorem C1_retry_sent_with_stale_token :
    (request c1Env c1World .runtime (serialPayload c1World.st)).2.trace =
      [⟨.runtime, some "JSESSIONID=oldtok", "serialNum=SN123"⟩,
       ⟨.login, none, "account=u&password=p"⟩,
       ⟨.runtime, some "JSESSIONID=oldtok", "serialNum=SN123"⟩] ∧
    (request c1Env c1World .runtime
      (serialPayload c1World.st)).2.st.jsessionid = some "newtok" :=
  ⟨rfl, rfl⟩

/-- A client state holding exactly one inverter, for the C7 runs. -/
def oneInvState : ClientState :=
  ⟨"u", "p", some "tok",
   [⟨some (.str "P1"), some (.str "Home"), [("serialNum", .str "SN123")]⟩],
   none, none⟩

/-- C7 counterexample: with a one-element device list, index `-2` is
outside the range of valid positions, yet `set_selected_inverter` raises
Python `IndexError` (the guard `len(self._inverters) > inverterIndex`
passes and the negative indexing itself fails), not `EG4APIError` as the
claim states. -/
theorem C7_counterexample_negative_index_raises_IndexError :
    (set_selected_inverter oneInvState none none (some (-2))).1 =
      .error .indexError := rfl

/-- C7 (amended): with no plant+serial pair, `set_selected_inverter`
raises `EG4APIError` and changes nothing both when no index is given and
when a *nonnegative* index at or beyond the device-list length is given.
(A negative index below `-len` instead raises `IndexError`, and other
negative indices select from the back, per Python indexing.) -/
theorem C7_invalid_selection_raises_APIError (st : ClientState)
    (plantId serialNum : Option Json)
    (hpair : (plantId.isSome && serialNum.isSome) = false) :
    set_selected_inverter st plantId serialNum none =
      (.error (.apiError noSelectionMsg), st) ∧
    ∀ i : Int, 0 ≤ i → (st.inverters.length : Int) ≤ i →
      set_selected_inverter st plantId serialNum (some i) =
        (.error (.apiError noSelectionMsg), st) := by
  constructor
  · unfold set_selected_inverter
    simp [hpair]
  · intro i _ hlen
    unfold set_selected_inverter
    simp only [hpair, Bool.false_eq_true, if_false]
    rw [if_neg (by omega)]

/-- C7 witness: both failure modes at a concrete one-inverter client. -/
theorem C7_witness :
    set_selected_inverter oneInvState none none none =
      (.error (.apiError noSelectionMsg), oneInvState) ∧
    set_selected_inverter oneInvState none none (some 5) =
      (.error (.apiError noSelectionMsg), oneInvState) :=
  ⟨(C7_invalid_selection_raises_APIError oneInvState none none rfl).1,
   (C7_invalid_selection_raises_APIError oneInvState none none rfl).2 5
     (by decide) (by decide)⟩

/-- The spec's example battery body. -/
def batteryBodyEx : Json :=
  .obj [("success", .bool true), ("remainCapacity", .num 50),
        ("fullCapacity", .num 100),
        ("batteryArray",
         .arr [.obj [("voltage", .num (52.1 : ℚ))],
               .obj [("voltage", .num (52.3 : ℚ))]])]

/-- World for the C9 run: token cached, serial `SN123` active. -/
def c9World : World :=
  ⟨⟨"u", "p", some "tok", [], none, some (.str "SN123")⟩, 0, []⟩

/-- C9: on the spec's example battery body, the battery fetch returns a
`BatteryData` record with `remainCapacity = 50` and exactly two
`BatteryUnit` records, one per `batteryArray` entry, in order. -/
theorem C9_battery_example :
    (get_inverter_battery_async
      (scriptEnv [⟨200, [], "", batteryBodyEx⟩]) c9World true).1 =
      .ok (.ok ⟨some (.num 50), some (.num 100), none, none, none,
        [⟨true, [("voltage", .num (52.1 : ℚ))]⟩,
         ⟨true, [("voltage", .num (52.3 : ℚ))]⟩]⟩) := rfl

/-- `login` performs exactly one HTTP call, whatever its outcome. -/
theorem login_counter (env : HttpEnv) (w : World) :
    (login env w).2.counter = w.counter + 1 := by
  unfold login doCall
  by_cases h200 : (env.respond w.counter).status = 200
  · cases hext : extract_jsessionid (env.respond w.counter).cookies with
    | error e => simp [h200, hext]
    | ok tok =>
      by_cases hs : successIsTrue (env.respond w.counter).body
      · cases hinv : extract_inverters (env.respond w.counter).body with
        | error e => simp [h200, hext, hs, hinv]
        | ok invs => simp [h200, hext, hs, hinv]
      · simp [h200, hext, hs]
  · simp [h200]

/-- The one HTTP call `login` performs is the credentials POST to the login
endpoint, whatever its outcome. -/
theorem login_trace (env : HttpEnv) (w : World) :
    (login env w).2.trace =
      w.trace ++ [⟨.login, none, loginPayload w.st⟩] := by
  unfold login doCall
  by_cases h200 : (env.respond w.counter).status = 200
  · cases hext : extract_jsessionid (env.respond w.counter).cookies with
    | error e => simp [h200, hext]
    | ok tok =>
      by_cases hs : successIsTrue (env.respond w.counter).body
      · cases hinv : extract_inverters (env.respond w.counter).body with
        | error e => simp [h200, hext, hs, hinv]
        | ok invs => simp [h200, hext, hs, hinv]
      · simp [h200, hext, hs]
  · simp [h200]

/-- A login response that makes `login` succeed: status 200, a
`JSESSIONID` cookie, body `success: true`, a nonempty device list. -/
def loginResponseOk (r : Response) : Prop :=
  r.status = 200 ∧
  (∃ c, r.cookies.find? (fun p => p.1 = "JSESSIONID") = some c) ∧
  successIsTrue r.body = true ∧
  invertersOf r.body ≠ []

/-- `login` succeeds on a `loginResponseOk` response. -/
theorem login_ok_of_responseOk (env : HttpEnv) (w : World)
    (h : loginResponseOk (env.respond w.counter)) :
    (login env w).1 = .ok () := by
  obtain ⟨h200, ⟨c, hck⟩, hs, hinv⟩ := h
  unfold login doCall
  simp [h200, extract_jsessionid, hck, hs, extract_inverters,
    List.isEmpty_iff, hinv]

/-- C8: for a login response with status 200, a `JSESSIONID` cookie and a
body with `success: true`: when `plants[].inverters[]` yields no entries,
`login` raises `EG4APIError` (with the no-inverters message, not an
`EG4AuthError`); otherwise it succeeds and the device list becomes one
entry per inverter across all plants, in order. -/
theorem C8_login_populates_device_list (env : HttpEnv) (w : World)
    (c : String × String) (h200 : (env.respond w.counter).status = 200)
    (hck : (env.respond w.counter).cookies.find?
      (fun p => p.1 = "JSESSIONID") = some c)
    (hs : successIsTrue (env.respond w.counter).body = true) :
    (invertersOf (env.respond w.counter).body = [] →
      (login env w).1 =
        .error (.apiError "No inverters found in the response data.")) ∧
    (invertersOf (env.respond w.counter).body ≠ [] →
      (login env w).1 = .ok () ∧
      (login env w).2.st.inverters = invertersOf (env.respond w.counter).body)
    := by
  constructor <;> intro hinv <;> unfold login doCall <;>
    simp [h200, extract_jsessionid, hck, hs, extract_inverters,
      List.isEmpty_iff, hinv]

/-- C8 witness: the spec's example login response populates the device
list with the one `SN123` inverter. -/
theorem C8_witness :
    (login (scriptEnv [loginRespOk "tok"])
      (initWorld (initState "u" "p"))).1 = .ok () ∧
    (login (scriptEnv [loginRespOk "tok"])
      (initWorld (initState "u" "p"))).2.st.inverters =
        invertersOf loginBodyOk :=
  (C8_login_populates_device_list (scriptEnv [loginRespOk "tok"])
    (initWorld (initState "u" "p")) ("JSESSIONID", "tok")
    rfl rfl rfl).2 (List.cons_ne_nil _ _)

/-- C5: a data fetch whose underlying request yields a 200 body reporting
`success: false` returns (rather than raises) the `APIResponse` failure
value carrying the body's `error` field — for each of the runtime, energy
and battery fetches. -/
theorem C5_success_false_returns_APIResponse (env : HttpEnv) (w : World)
    (body : Json) (ce : Bool)
    (hsucc : body.get "success" = some (.bool false)) :
    ((request env w .runtime (serialPayload w.st)).1 = .ok body →
      (get_inverter_runtime_async env w ce).1 =
        .ok (.fail ⟨false, body.get "error"⟩)) ∧
    ((request env w .energy (serialPayload w.st)).1 = .ok body →
      (get_inverter_energy_async env w ce).1 =
        .ok (.fail ⟨false, body.get "error"⟩)) ∧
    ((request env w .battery (serialPayload w.st)).1 = .ok body →
      (get_inverter_battery_async env w ce).1 =
        .ok (.fail ⟨false, body.get "error"⟩)) := by
  refine ⟨fun hreq => ?_, fun hreq => ?_, fun hreq => ?_⟩
  · rcases hr : request env w .runtime (serialPayload w.st) with ⟨r, w1⟩
    rw [hr] at hreq
    unfold get_inverter_runtime_async
    rw [hr, show r = .ok body from hreq]
    simp [optTruthy, Json.truthy, hsucc]
  · rcases hr : request env w .energy (serialPayload w.st) with ⟨r, w1⟩
    rw [hr] at hreq
    unfold get_inverter_energy_async
    rw [hr, show r = .ok body from hreq]
    simp [optTruthy, Json.truthy, hsucc]
  · rcases hr : request env w .battery (serialPayload w.st) with ⟨r, w1⟩
    rw [hr] at hreq
    unfold get_inverter_battery_async
    rw [hr, show r = .ok body from hreq]
    simp [optTruthy, Json.truthy, hsucc]

/-- A vendor soft-failure body. -/
def failBody : Json :=
  .obj [("success", .bool false), ("error", .str "no data")]

/-- C5 witness: all three fetches return the failure value on a 200
response with body `{"success": false, "error": "no data"}`. -/
theorem C5_witness :
    (get_inverter_runtime_async (scriptEnv [⟨200, [], "", failBody⟩])
      c9World true).1 = .ok (.fail ⟨false, failBody.get "error"⟩) ∧
    (get_inverter_energy_async (scriptEnv [⟨200, [], "", failBody⟩])
      c9World true).1 = .ok (.fail ⟨false, failBody.get "error"⟩) ∧
    (get_inverter_battery_async (scriptEnv [⟨200, [], "", failBody⟩])
      c9World true).1 = .ok (.fail ⟨false, failBody.get "error"⟩) :=
  ⟨(C5_success_false_returns_APIResponse _ c9World failBody true rfl).1 rfl,
   (C5_success_false_returns_APIResponse _ c9World failBody true rfl).2.1 rfl,
   (C5_success_false_returns_APIResponse _ c9World failBody true rfl).2.2 rfl⟩

/-- Whatever happens after it, the first HTTP call `requestCore` issues is
the data request carrying the cached token as its `Cookie` header. -/
theorem requestCore_trace_head (env : HttpEnv) (w : World) (ep : Endpoint)
    (payload : String) :
    ∃ rest, (requestCore env w ep payload).2.trace =
      w.trace ++ [⟨ep, some (cookieHeader w.st.jsessionid), payload⟩]
        ++ rest := by
  unfold requestCore
  rcases hdc : doCall env w ⟨ep, some (cookieHeader w.st.jsessionid), payload⟩
    with ⟨response, w2⟩
  have hw2 : w2.trace =
      w.trace ++ [⟨ep, some (cookieHeader w.st.jsessionid), payload⟩] := by
    have : (doCall env w
        ⟨ep, some (cookieHeader w.st.jsessionid), payload⟩).2.trace =
      w.trace ++ [⟨ep, some (cookieHeader w.st.jsessionid), payload⟩] := rfl
    rw [hdc] at this
    exact this
  by_cases h401 : response.status = 401
  · rcases hl : login env w2 with ⟨r3, w3⟩
    have hw3 : w3.trace = w2.trace ++ [⟨.login, none, loginPayload w2.st⟩] := by
      have := login_trace env w2
      rw [hl] at this
      exact this
    cases r3 with
    | error e =>
      exact ⟨[⟨.login, none, loginPayload w2.st⟩], by
        simp [hdc, h401, hl, hw3, hw2]⟩
    | ok u =>
      rcases hdc2 : doCall env w3
          ⟨ep, some (cookieHeader w.st.jsessionid), payload⟩
        with ⟨retry, w4⟩
      have hw4 : w4.trace =
          w3.trace ++ [⟨ep, some (cookieHeader w.st.jsessionid), payload⟩] := by
        have : (doCall env w3
            ⟨ep, some (cookieHeader w.st.jsessionid), payload⟩).2.trace =
          w3.trace ++ [⟨ep, some (cookieHeader w.st.jsessionid), payload⟩] :=
          rfl
        rw [hdc2] at this
        exact this
      refine ⟨[⟨.login, none, loginPayload w2.st⟩,
        ⟨ep, some (cookieHeader w.st.jsessionid), payload⟩], ?_⟩
      by_cases h200 : retry.status = 200 <;>
        simp [hdc, h401, hl, hdc2, h200, hw4, hw3, hw2]
  · refine ⟨[], ?_⟩
    by_cases h200 : response.status = 200 <;>
      simp [hdc, h401, h200, hw2]

/-- C6: a data request issued with no cached session token (`None` or
empty) first performs a login; if that login fails, its error propagates
and no data request is sent; if it succeeds, the very next HTTP call is
the data request, carrying the token the login just produced in its
`Cookie` header. -/
theorem C6_data_request_logs_in_first (env : HttpEnv) (w : World)
    (ep : Endpoint) (payload : String)
    (htok : tokenFalsy w.st.jsessionid = true) :
    (∀ w1, login env w = (.ok (), w1) →
      ∃ rest, (request env w ep payload).2.trace =
        w.trace ++ [⟨.login, none, loginPayload w.st⟩,
          ⟨ep, some (cookieHeader w1.st.jsessionid), payload⟩] ++ rest) ∧
    (∀ e w1, login env w = (.error e, w1) →
      request env w ep payload = (.error e, w1)) := by
  constructor
  · intro w1 hl
    have hw1 : w1.trace = w.trace ++ [⟨.login, none, loginPayload w.st⟩] := by
      have := login_trace env w
      rw [hl] at this
      exact this
    have hreq : request env w ep payload = requestCore env w1 ep payload := by
      unfold request
      rw [htok]
      simp [hl]
    obtain ⟨rest, hrest⟩ := requestCore_trace_head env w1 ep payload
    refine ⟨rest, ?_⟩
    rw [hreq, hrest, hw1]
    simp
  · intro e w1 hl
    unfold request
    rw [htok]
    simp [hl]

/-- C6 witness: a fresh client (no token) fetching data: the trace starts
with the login call followed by the data call carrying the new token. -/
theorem C6_witness :
    ∃ rest, (request (scriptEnv [loginRespOk "tok", ⟨200, [], "", failBody⟩])
      (initWorld (initState "u" "p")) .runtime "serialNum=None").2.trace =
        [] ++ [⟨.login, none, loginPayload (initState "u" "p")⟩,
          ⟨.runtime, some (cookieHeader
            ((login (scriptEnv [loginRespOk "tok", ⟨200, [], "", failBody⟩])
              (initWorld (initState "u" "p"))).2.st.jsessionid)),
            "serialNum=None"⟩] ++ rest :=
  (C6_data_request_logs_in_first
    (scriptEnv [loginRespOk "tok", ⟨200, [], "", failBody⟩])
    (initWorld (initState "u" "p")) .runtime "serialNum=None" rfl).1
    (login (scriptEnv [loginRespOk "tok", ⟨200, [], "", failBody⟩])
      (initWorld (initState "u" "p"))).2 rfl

/-- C2 (amended): for every data request that is sent — from the world
`w1` the client is in once the implicit-login step has completed, which is
`w` itself when a token was cached and the post-login world otherwise —
a 401 first response triggers exactly one re-login; if the re-login
succeeds, exactly one retried request is performed (the trace grows by
exactly the data call, the login call and the retried data call), with a
200 retry returning the parsed body and a non-200 retry raising
`EG4APIError` carrying the retry status; if the re-login fails, its error
propagates and no retry is sent; a non-401 non-200 first response raises
`EG4APIError` immediately with no re-login and no retry; a 200 first
response returns the parsed body.  (When no token is cached and the
implicit login fails, no data request is sent at all, as proved in
`C6_data_request_logs_in_first`.) -/
theorem C2_request_status_handling (env : HttpEnv) (w : World)
    (ep : Endpoint) (payload : String) (w1 : World)
    (hstart : (if tokenFalsy w.st.jsessionid then login env w
      else (.ok (), w)) = (.ok (), w1)) :
    ((env.respond w1.counter).status = 401 →
      loginResponseOk (env.respond (w1.counter + 1)) →
      (request env w ep payload).2.trace =
        w1.trace ++ [⟨ep, some (cookieHeader w1.st.jsessionid), payload⟩,
          ⟨.login, none, loginPayload w1.st⟩,
          ⟨ep, some (cookieHeader w1.st.jsessionid), payload⟩] ∧
      ((env.respond (w1.counter + 2)).status = 200 →
        (request env w ep payload).1 =
          .ok (env.respond (w1.counter + 2)).body) ∧
      ((env.respond (w1.counter + 2)).status ≠ 200 →
        (request env w ep payload).1 = .error (.apiError
          ("API request failed: " ++
            toString (env.respond (w1.counter + 2)).status)))) ∧
    ((env.respond w1.counter).status = 401 →
      ∀ e w3, login env (doCall env w1
          ⟨ep, some (cookieHeader w1.st.jsessionid), payload⟩).2 =
        (.error e, w3) →
      request env w ep payload = (.error e, w3) ∧
      w3.trace =
        w1.trace ++ [⟨ep, some (cookieHeader w1.st.jsessionid), payload⟩,
          ⟨.login, none, loginPayload w1.st⟩]) ∧
    ((env.respond w1.counter).status ≠ 401 →
      (env.respond w1.counter).status ≠ 200 →
      (request env w ep payload).1 = .error (.apiError
        ("API request failed: " ++ toString (env.respond w1.counter).status
          ++ " - " ++ (env.respond w1.counter).text)) ∧
      (request env w ep payload).2.trace =
        w1.trace ++ [⟨ep, some (cookieHeader w1.st.jsessionid), payload⟩]) ∧
    ((env.respond w1.counter).status = 200 →
      (request env w ep payload).1 = .ok (env.respond w1.counter).body) := by
  have hreq : request env w ep payload = requestCore env w1 ep payload := by
    unfold request
    rw [hstart]
  rw [hreq]
  unfold requestCore
  rcases hdc : doCall env w1
      ⟨ep, some (cookieHeader w1.st.jsessionid), payload⟩
    with ⟨response, w2⟩
  have hresp : response = env.respond w1.counter := by
    have : (doCall env w1
        ⟨ep, some (cookieHeader w1.st.jsessionid), payload⟩).1 =
      env.respond w1.counter := rfl
    rw [hdc] at this
    exact this
  have hw2t : w2.trace =
      w1.trace ++ [⟨ep, some (cookieHeader w1.st.jsessionid), payload⟩] := by
    have : (doCall env w1
        ⟨ep, some (cookieHeader w1.st.jsessionid), payload⟩).2.trace =
      w1.trace ++ [⟨ep, some (cookieHeader w1.st.jsessionid), payload⟩] := rfl
    rw [hdc] at this
    exact this
  have hw2c : w2.counter = w1.counter + 1 := by
    have : (doCall env w1
        ⟨ep, some (cookieHeader w1.st.jsessionid), payload⟩).2.counter =
      w1.counter + 1 := rfl
    rw [hdc] at this
    exact this
  have hw2s : w2.st = w1.st := by
    have : (doCall env w1
        ⟨ep, some (cookieHeader w1.st.jsessionid), payload⟩).2.st = w1.st :=
      rfl
    rw [hdc] at this
    exact this
  subst hresp
  refine ⟨fun h401 hok => ?_, fun h401 e w3 hl => ?_,
    fun hn401 hn200 => ?_, fun h200 => ?_⟩
  · rcases hl : login env w2 with ⟨r3, w3⟩
    have hr3 : r3 = .ok () := by
      have := login_ok_of_responseOk env w2 (by rw [hw2c]; exact hok)
      rw [hl] at this
      cases r3 with
      | error e => exact absurd this (by simp)
      | ok u => rfl
    subst hr3
    have hw3t : w3.trace = w2.trace ++ [⟨.login, none, loginPayload w2.st⟩]
        := by
      have := login_trace env w2
      rw [hl] at this
      exact this
    have hw3c : w3.counter = w1.counter + 2 := by
      have := login_counter env w2
      rw [hl] at this
      rw [this, hw2c]
    rcases hdc2 : doCall env w3
        ⟨ep, some (cookieHeader w1.st.jsessionid), payload⟩
      with ⟨retry, w4⟩
    have hretry : retry = env.respond (w1.counter + 2) := by
      have : (doCall env w3
          ⟨ep, some (cookieHeader w1.st.jsessionid), payload⟩).1 =
        env.respond w3.counter := rfl
      rw [hdc2] at this
      have h2 : retry = env.respond w3.counter := this
      rw [h2, hw3c]
    have hw4t : w4.trace =
        w3.trace ++ [⟨ep, some (cookieHeader w1.st.jsessionid), payload⟩]
        := by
      have : (doCall env w3
          ⟨ep, some (cookieHeader w1.st.jsessionid), payload⟩).2.trace =
        w3.trace ++ [⟨ep, some (cookieHeader w1.st.jsessionid), payload⟩] :=
        rfl
      rw [hdc2] at this
      exact this
    subst hretry
    refine ⟨?_, fun h200r => ?_, fun hn200r => ?_⟩
    · simp [hdc, h401, hl, hdc2, hw4t, hw3t, hw2t, hw2s,
        apply_ite (fun p : Except PyError Json × World => p.2.trace)]
    · simp [hdc, h401, hl, hdc2, h200r]
    · simp [hdc, h401, hl, hdc2, hn200r]
  · have hl' : login env w2 = (.error e, w3) := hl
    have hw3t : w3.trace =
        w2.trace ++ [⟨.login, none, loginPayload w2.st⟩] := by
      have := login_trace env w2
      rw [hl'] at this
      exact this
    refine ⟨by simp [hdc, h401, hl'], ?_⟩
    rw [hw3t, hw2t, hw2s]
    simp
  · simp [hdc, hn401, hn200, hw2t]
  · simp [hdc, h200]

/-- Environment for the C2 witness: the implicit login succeeds, the data
call gets a 401, the re-login succeeds with a new token, the retry gets a
500. -/
def c2Env : HttpEnv :=
  scriptEnv [loginRespOk "tok", ⟨401, [], "", .null⟩, loginRespOk "tok2",
    ⟨500, [], "", .null⟩]

/-- C2 witness, on a data request issued with *no* cached token: after the
implicit login, the 401 triggers exactly one re-login and one retry, and
the 500 retry raises `EG4APIError` carrying 500. -/
theorem C2_witness :
    (request c2Env (initWorld (initState "u" "p")) .runtime
        "serialNum=None").2.trace =
      [⟨.login, none, "account=u&password=p"⟩,
       ⟨.runtime, some "JSESSIONID=tok", "serialNum=None"⟩,
       ⟨.login, none, "account=u&password=p"⟩,
       ⟨.runtime, some "JSESSIONID=tok", "serialNum=None"⟩] ∧
    (request c2Env (initWorld (initState "u" "p")) .runtime
        "serialNum=None").1 =
      .error (.apiError ("API request failed: " ++ toString 500)) := by
  have h := (C2_request_status_handling c2Env (initWorld (initState "u" "p"))
    .runtime "serialNum=None"
    (login c2Env (initWorld (initState "u" "p"))).2 rfl).1 rfl
    ⟨rfl, ⟨("JSESSIONID", "tok2"), rfl⟩, rfl, List.cons_ne_nil _ _⟩
  exact ⟨h.1, h.2.2 (by decide)⟩

/-- C2 counterexample: when the first response is 401 but the re-login
response is a 500, the re-login raises `EG4AuthError` and *no* retried
request is performed — the trace holds a single data call — contradicting
the claim that a 401 always leads to exactly one retried request. -/
theorem C2_counterexample_failed_relogin_sends_no_retry :
    (request (scriptEnv [⟨401, [], "", .null⟩, ⟨500, [], "", .null⟩])
      c1World .runtime "serialNum=SN123").2.trace =
      [⟨.runtime, some "JSESSIONID=oldtok", "serialNum=SN123"⟩,
       ⟨.login, none, "account=u&password=p"⟩] ∧
    (request (scriptEnv [⟨401, [], "", .null⟩, ⟨500, [], "", .null⟩])
      c1World .runtime "serialNum=SN123").1 =
      .error (.authError loginFailedMsg) :=
  ⟨rfl, rfl⟩

end EG4
